import Mathlib

/-!
Verification development for the Smart-Canvas tool-orchestration runtime
(`backend/api/orchestrator`).  The Python source is shallowly embedded:
pure computations become Lean functions, `await asyncio.sleep(d)` calls are
recorded as rational delays in an explicit trace, exceptions become explicit
sum types, and wall-clock values (`time.time()`, `datetime.now()`) become
explicit rational/natural parameters.
-/

namespace SmartCanvas

/-! ## String helpers

Python's `sub in s` (substring containment) and `str.lower()`, used by the
error classifiers in `routes.py`, `jina_ai_service.py` and `agent.py`. -/

/-- Whether `p` is a prefix of `s`, on character lists. -/
def prefixAt : List Char → List Char → Bool
  | [], _ => true
  | _ :: _, [] => false
  | p :: ps, c :: cs => p == c && prefixAt ps cs

/-- Whether `sub` occurs as a contiguous substring of `s` (Python `sub in s`). -/
def containsSub (s sub : List Char) : Bool :=
  prefixAt sub s ||
    match s with
    | [] => false
    | _ :: rest => containsSub rest sub

/-- String version of `containsSub`. -/
def strContains (s sub : String) : Bool :=
  containsSub s.data sub.data

/-- Python `str.lower()` (ASCII case folding suffices for the embedded data). -/
def strLower (s : String) : String :=
  String.mk (s.data.map Char.toLower)

/-! ## Retry wrapper of `routes.py` (`retry_with_backoff`, lines 55-94)

The wrapped operation is modelled as a function from the attempt index to an
attempt outcome: success, a `NonRetryableError`, or any other exception
(carrying its message).  The executor's behaviour is returned as the final
outcome together with the trace of delays slept and the number of attempts
made. -/

/-- Outcome of one attempt of the wrapped operation. -/
inductive Attempt (α : Type) where
  | ok (a : α)
  | nonRetryableErr (msg : String)
  | exc (msg : String)
deriving DecidableEq

/-- Final outcome of `retry_with_backoff`. -/
inductive RetryOutcome (α : Type) where
  | success (a : α)
  | raisedNonRetryable (msg : String)
  | raisedLast (msg : String)
deriving DecidableEq

/-- Full observable behaviour of one `retry_with_backoff` call:
final outcome, the list of backoff delays slept (in seconds, in order),
and the number of attempts of the underlying operation. -/
structure RetryRun (α : Type) where
  outcome : RetryOutcome α
  delays : List ℚ
  attempts : ℕ
deriving DecidableEq

/-- The delay computed at line 88 of `routes.py`:
`min(base_delay * (backoff_factor ** attempt), max_delay)`. -/
def backoffDelay (baseDelay backoffFactor maxDelay : ℚ) (attempt : ℕ) : ℚ :=
  min (baseDelay * backoffFactor ^ attempt) maxDelay

/-- The `for attempt in range(max_retries + 1)` loop of `retry_with_backoff`.
`fuel` is the number of loop iterations still allowed after the current one
(`max_retries - attempt`); at `fuel = 0` a failing attempt hits the
`attempt == max_retries` break and the last exception is re-raised. -/
def retryGo (op : ℕ → Attempt α) (baseDelay backoffFactor maxDelay : ℚ)
    (attempt : ℕ) : ℕ → RetryRun α
  | 0 =>
    match op attempt with
    | .ok a => ⟨.success a, [], 1⟩
    | .nonRetryableErr m => ⟨.raisedNonRetryable m, [], 1⟩
    | .exc m => ⟨.raisedLast m, [], 1⟩
  | fuel + 1 =>
    match op attempt with
    | .ok a => ⟨.success a, [], 1⟩
    | .nonRetryableErr m => ⟨.raisedNonRetryable m, [], 1⟩
    | .exc _ =>
      let rest := retryGo op baseDelay backoffFactor maxDelay (attempt + 1) fuel
      ⟨rest.outcome, backoffDelay baseDelay backoffFactor maxDelay attempt :: rest.delays,
        rest.attempts + 1⟩

/-- `retry_with_backoff(func, max_retries, base_delay, max_delay,
backoff_factor)` from `routes.py`. -/
def retry_with_backoff (op : ℕ → Attempt α) (maxRetries : ℕ)
    (baseDelay maxDelay backoffFactor : ℚ) : RetryRun α :=
  retryGo op baseDelay backoffFactor maxDelay 0 maxRetries

/-! ## Retry wrapper of `jina_ai_service.py` (`retry_jina_request`, lines 30-68)

Attempts either succeed, raise `JinaNonRetryableError` (re-raised as is), or
raise some other exception carrying a message.  A generic exception is only
retried when its lowercased message contains one of the retryable keywords
and attempts remain; otherwise a `JinaNonRetryableError` wrapping the
message is raised. -/

/-- Outcome of one attempt of a Jina operation. -/
inductive JinaAttempt (α : Type) where
  | ok (a : α)
  | jinaNonRetryable (msg : String)
  | exc (msg : String)
deriving DecidableEq

/-- Final outcome of `retry_jina_request`:
either a success or a raised exception message. -/
inductive JinaOutcome (α : Type) where
  | success (a : α)
  | raised (msg : String)
deriving DecidableEq

/-- Observable behaviour of one `retry_jina_request` call. -/
structure JinaRun (α : Type) where
  outcome : JinaOutcome α
  delays : List ℚ
  attempts : ℕ
deriving DecidableEq

/-- Keywords making a generic exception retryable
(line 57 of `jina_ai_service.py`). -/
def jinaRetryKeywords : List String :=
  ["timeout", "connection", "network", "temporary", "429", "502", "503", "504"]

/-- `any(keyword in error_str for keyword in [...])` with
`error_str = str(e).lower()`. -/
def jinaRetryable (msg : String) : Bool :=
  jinaRetryKeywords.any (fun k => strContains (strLower msg) k)

/-- The `for attempt in range(max_retries + 1)` loop of `retry_jina_request`;
`fuel = max_retries - attempt` as in `retryGo`. -/
def jinaGo (op : ℕ → JinaAttempt α) (baseDelay backoffFactor maxDelay : ℚ)
    (attempt : ℕ) : ℕ → JinaRun α
  | 0 =>
    match op attempt with
    | .ok a => ⟨.success a, [], 1⟩
    | .jinaNonRetryable m => ⟨.raised m, [], 1⟩
    | .exc m => ⟨.raised ("Jina AI request failed: " ++ m), [], 1⟩
  | fuel + 1 =>
    match op attempt with
    | .ok a => ⟨.success a, [], 1⟩
    | .jinaNonRetryable m => ⟨.raised m, [], 1⟩
    | .exc m =>
      if jinaRetryable m then
        let rest := jinaGo op baseDelay backoffFactor maxDelay (attempt + 1) fuel
        ⟨rest.outcome, backoffDelay baseDelay backoffFactor maxDelay attempt :: rest.delays,
          rest.attempts + 1⟩
      else
        ⟨.raised ("Jina AI request failed: " ++ m), [], 1⟩

/-- `retry_jina_request(func, max_retries, base_delay, max_delay,
backoff_factor)` from `jina_ai_service.py`. -/
def retry_jina_request (op : ℕ → JinaAttempt α) (maxRetries : ℕ)
    (baseDelay maxDelay backoffFactor : ℚ) : JinaRun α :=
  jinaGo op baseDelay backoffFactor maxDelay 0 maxRetries

/-! ## Retry wrapper of `agent.py` (`MetatronAgent._execute_with_retry`,
lines 222-263)

On final failure the code builds a `ToolExecutionMetadata` with
`success=False, retry_count=retry_count-1` and raises
`ModelRetry(f"Tool {tool_name} failed after {max_retries} retries: {e}")`.
The sleep before the n-th re-attempt is `retry_delay * retry_count`
(linear, despite the "Exponential backoff" comment in the source).
Wall-clock `execution_time`/`timestamp` fields are omitted from the model. -/

/-- The fields of `ToolExecutionMetadata` relevant to the retry contract. -/
structure ToolMeta where
  tool_name : String
  success : Bool
  retry_count : ℕ
deriving DecidableEq

/-- Final outcome of `_execute_with_retry`: a result paired with its
metadata, or a raised `ModelRetry` whose construction also built a failure
metadata record. -/
inductive ExecOutcome (α : Type) where
  | ok (a : α) (meta : ToolMeta)
  | modelRetry (msg : String) (meta : ToolMeta)
deriving DecidableEq

/-- Observable behaviour of one `_execute_with_retry` call. -/
structure ExecRun (α : Type) where
  outcome : ExecOutcome α
  delays : List ℚ
  attempts : ℕ
deriving DecidableEq

/-- The `while retry_count <= max_retries` loop; `retryCount` is the loop
variable and `fuel = max_retries - retry_count`. -/
def execGo (op : ℕ → Except String α) (toolName : String)
    (maxRetries : ℕ) (retryDelay : ℚ) (retryCount : ℕ) : ℕ → ExecRun α
  | 0 =>
    match op retryCount with
    | .ok a => ⟨.ok a ⟨toolName, true, retryCount⟩, [], 1⟩
    | .error m =>
      ⟨.modelRetry
        ("Tool " ++ toolName ++ " failed after " ++ toString maxRetries ++
          " retries: " ++ m)
        ⟨toolName, false, retryCount + 1 - 1⟩, [], 1⟩
  | fuel + 1 =>
    match op retryCount with
    | .ok a => ⟨.ok a ⟨toolName, true, retryCount⟩, [], 1⟩
    | .error _ =>
      let rest := execGo op toolName maxRetries retryDelay (retryCount + 1) fuel
      ⟨rest.outcome, retryDelay * (retryCount + 1 : ℚ) :: rest.delays,
        rest.attempts + 1⟩

/-- `MetatronAgent._execute_with_retry(operation, tool_name, max_retries,
retry_delay)` from `agent.py`. -/
def execute_with_retry (op : ℕ → Except String α) (toolName : String)
    (maxRetries : ℕ) (retryDelay : ℚ) : ExecRun α :=
  execGo op toolName maxRetries retryDelay 0 maxRetries

/-! ## RateLimiter of `jina_ai_service.py` (lines 70-99)

`acquire` is modelled as a function of the per-key timestamp list and the
current wall-clock time `now` (the value of `time.time()` at entry).  It
returns the new timestamp list and the wall-clock time at which the call
returns (`now` plus the slept wait, if any).  Note that the source appends
`now` — the pre-sleep timestamp — after sleeping. -/

/-- Number of timestamps of `reqs` lying within the trailing window of
width `timeWindow` ending at `now` (strict comparison, as in the purge at
lines 83-86). -/
def windowCount (reqs : List ℚ) (now timeWindow : ℚ) : ℕ :=
  (reqs.filter (fun t => now - t < timeWindow)).length

/-- `RateLimiter.acquire` for one key: purge, optionally wait, then record
`now`.  Returns `(new timestamp list, time at which the call returns)`. -/
def acquire (maxRequests : ℕ) (timeWindow : ℚ) (reqs : List ℚ) (now : ℚ) :
    List ℚ × ℚ :=
  let purged := reqs.filter (fun t => now - t < timeWindow)
  if maxRequests ≤ purged.length then
    match purged.min? with
    | some oldest =>
      let wait := timeWindow - (now - oldest)
      (purged ++ [now], if 0 < wait then now + wait else now)
    | none => (purged ++ [now], now)
  else
    (purged ++ [now], now)

/-! ## Streaming endpoint of `routes.py` (`generate_stream`, lines 404-455)

The agent call is the only suspension that can raise; the stream is a pure
function of its outcome.  Each yielded server-sent line is either a JSON
chunk (tagged with the `type` field the code puts in the JSON object) or
the literal `[DONE]` sentinel. -/

/-- One server-sent line of the streaming protocol. -/
inductive SLine where
  | chunk (ty : String) (content : String)
  | done
deriving DecidableEq

/-- The first status message (line 410). -/
def streamInitMsg : String := "🤖 Initializing AI agent..."

/-- The pre-formatting status message (line 423). -/
def streamFormatMsg : String := "✅ Processing complete! Formatting response..."

/-- `generate_stream` as a function of the agent run's outcome
(`Except` error-message response-text). -/
def generate_stream (agentResult : Except String String) : List SLine :=
  match agentResult with
  | .ok response =>
    [.chunk "status" streamInitMsg,
     .chunk "status" streamFormatMsg,
     .chunk "response" response,
     .done]
  | .error m =>
    [.chunk "status" streamInitMsg,
     .chunk "error" ("Processing failed: " ++ m),
     .done]

/-! ## Error taxonomy of `routes.py` (`create_error_response`, lines 96-133)

The `isinstance` dispatch needs the exception's Python class, so exceptions
are modelled as a class tag plus a message. -/

/-- The Python exception classes distinguished by `create_error_response`. -/
inductive ExcClass where
  | connectionErr
  | timeoutErr
  | valueErr
  | permissionErr
  | other
deriving DecidableEq

/-- An exception value: its class and its `str(e)` message. -/
structure Exc where
  cls : ExcClass
  msg : String
deriving DecidableEq

/-- The `user_message` strings of `create_error_response`. -/
def userMsgConnection : String :=
  "I\x27m having trouble connecting to external services. Please try again in a moment."

/-- Validation-error user message. -/
def userMsgValidation : String :=
  "There was an issue with the request format. Please check your input and try again."

/-- Permission-error user message. -/
def userMsgPermission : String :=
  "I don\x27t have permission to access the requested resource."

/-- Rate-limit user message. -/
def userMsgRateLimit : String :=
  "I\x27m currently experiencing high demand. Please wait a moment and try again."

/-- Authentication-error user message. -/
def userMsgAuth : String :=
  "There\x27s an authentication issue with external services. Please contact support."

/-- Unknown-error user message. -/
def userMsgUnknown : String :=
  "I encountered an unexpected issue. Please try again or contact support if the problem persists."

/-- The `(category, user_message)` pair computed by `create_error_response`. -/
def create_error_response (e : Exc) : String × String :=
  if e.cls = .connectionErr ∨ e.cls = .timeoutErr then
    ("connection_error", userMsgConnection)
  else if e.cls = .valueErr then
    ("validation_error", userMsgValidation)
  else if e.cls = .permissionErr then
    ("permission_error", userMsgPermission)
  else if strContains (strLower e.msg) "rate limit" then
    ("rate_limit_error", userMsgRateLimit)
  else if strContains (strLower e.msg) "api key" ∨
      strContains (strLower e.msg) "authentication" then
    ("auth_error", userMsgAuth)
  else
    ("unknown_error", userMsgUnknown)

/-! ## Chat endpoint error classification (`routes.py`, lines 161-243)

`run_chat_with_retry` calls the agent and re-classifies any raised
exception: messages containing one of the keywords at line 198 become
`RetryableError("Temporary error: ...")` (a generic exception for
`retry_with_backoff`, hence retried), everything else becomes
`NonRetryableError("Permanent error: ...")` (re-raised immediately). -/

/-- Keywords at line 198 of `routes.py`. -/
def chatRetryKeywords : List String := ["timeout", "connection", "network", "temporary"]

/-- `any(keyword in str(e).lower() for keyword in [...])`. -/
def chatRetryable (msg : String) : Bool :=
  chatRetryKeywords.any (fun k => strContains (strLower msg) k)

/-- One attempt of `run_chat_with_retry`, as seen by `retry_with_backoff`,
as a function of the agent call's outcome on that attempt. -/
def chatAttempt (agentCall : ℕ → Except String α) (k : ℕ) : Attempt α :=
  match agentCall k with
  | .ok v => .ok v
  | .error m =>
    if chatRetryable m then .exc ("Temporary error: " ++ m)
    else .nonRetryableErr ("Permanent error: " ++ m)

/-- The `/chat` endpoint's retry pipeline (lines 204-209):
`retry_with_backoff(run_chat_with_retry, max_retries=2, base_delay=1.0,
max_delay=10.0)` with the default `backoff_factor=2.0`. -/
def chatPipeline (agentCall : ℕ → Except String α) : RetryRun α :=
  retry_with_backoff (chatAttempt agentCall) 2 1 10 2

/-- The HTTP error detail returned by the `/chat` endpoint handlers
(lines 220-243): `NonRetryableError` → 400 with the taxonomy
`user_message`; `RetryableError` exhausted → 503 with a fixed message;
anything else → 500 with the taxonomy `user_message`. -/
def chatErrorDetail (r : RetryOutcome α) : Option (ℕ × String) :=
  match r with
  | .success _ => none
  | .raisedNonRetryable m => some (400, (create_error_response ⟨.other, m⟩).2)
  | .raisedLast _ =>
    some (503, "I\x27m experiencing temporary difficulties. Please try again in a moment.")

/-! ## `MetatronAgent.run` error layer (`agent.py`, lines 481-563)

The inner `self.agent.run` call is the external LLM operation; its outcome
is a parameter.  A raised error whose message contains `"429"` or
`"RESOURCE_EXHAUSTED"` (case-sensitive, line 517) yields the rate-limit
output as a normal return; any other raised error propagates to the outer
handler (line 544), which also returns normally with a fallback output that
embeds the raw message. -/

/-- The fields of `OrchestratorOutput` the claims are about. -/
structure AgentOutput where
  response : String
  reasoning : String
deriving DecidableEq

/-- How `MetatronAgent.run` returned: a normal completion carrying an
output (the code never re-raises past the outer handler). -/
inductive AgentRunResult where
  | complete (out : AgentOutput)
deriving DecidableEq

/-- Line 517: `"429" in error_msg or "RESOURCE_EXHAUSTED" in error_msg`. -/
def rateLimitSignal (msg : String) : Bool :=
  strContains msg "429" || strContains msg "RESOURCE_EXHAUSTED"

/-- The hard-coded rate-limit response text (lines 522-527). -/
def rateLimitOutput : AgentOutput :=
  ⟨"🚦 **Rate Limit Reached**\n\nI\x27ve hit the API rate limit. Please wait a moment and try again.\n\n**What happened:** The Gemini 2.5 Pro API has usage limits that help ensure fair access.\n\n**Solutions:**\n- Wait 1 minute and try again\n- Your request will work perfectly once the limit resets\n\n⏰ *Tip: Try again in about 60 seconds*",
   "Rate limit protection activated"⟩

/-- The fallback output of the outer handler (lines 547-556). -/
def fallbackOutput (msg : String) : AgentOutput :=
  ⟨"I apologize, but I encountered an error processing your request: " ++ msg,
   "Error occurred during processing"⟩

/-- `MetatronAgent.run` as a function of the inner LLM call's outcome. -/
def metatronRun (llmCall : Except String AgentOutput) : AgentRunResult :=
  match llmCall with
  | .ok out => .complete out
  | .error m =>
    if rateLimitSignal m then .complete rateLimitOutput
    else .complete (fallbackOutput m)

/-! ## Regular-expression engine

`content_detection_tool.py` delegates matching to Python's `re` module with
`re.IGNORECASE`.  The engine below implements the fragment of `re` used by
the tool's patterns: literals, `.`, character classes, `\b`, alternation
(left-preferring), greedy `*`/`+`/`?`/`{m,n}`, and numbered capturing
groups, with Python's backtracking preference order, case-insensitively.
`mAll` enumerates the match states reachable at one start position in
backtracking preference order; the head of the list is the match `re`
would produce. -/

/-- Regular-expression abstract syntax. -/
inductive RE where
  | eps
  | ch (c : Char)
  | dot
  | wb
  | cls (ranges : List (Char × Char)) (neg : Bool)
  | cat (a b : RE)
  | alt (a b : RE)
  | star (a : RE)
  | grp (n : ℕ) (a : RE)

/-- A matcher state: the previous character (for `\b`), the remaining
input, and the captures recorded so far (most recent first). -/
structure MSt where
  prev : Option Char
  rest : List Char
  caps : List (ℕ × String)

/-- Python `\w` on ASCII input: alphanumeric or underscore. -/
def isWordChar (c : Char) : Bool := c.isAlphanum || c == '_'

/-- Word-character test on an optional character (string edges count as
non-word). -/
def isWordOpt : Option Char → Bool
  | none => false
  | some c => isWordChar c

/-- Case-insensitive character-class membership. -/
def classMatch (ranges : List (Char × Char)) (neg : Bool) (x : Char) : Bool :=
  let inR := ranges.any (fun p => p.1.toLower ≤ x.toLower && x.toLower ≤ p.2.toLower)
  if neg then !inR else inR

/-- Matcher level with exhausted star fuel: `star` stops iterating and
matches zero repetitions. -/
def mAllBase : RE → MSt → List MSt
  | .eps, st => [st]
  | .ch c, st =>
    match st.rest with
    | [] => []
    | x :: xs => if x.toLower == c.toLower then [⟨some x, xs, st.caps⟩] else []
  | .dot, st =>
    match st.rest with
    | [] => []
    | x :: xs => if x == '\n' then [] else [⟨some x, xs, st.caps⟩]
  | .wb, st => if isWordOpt st.prev != isWordOpt st.rest.head? then [st] else []
  | .cls rs neg, st =>
    match st.rest with
    | [] => []
    | x :: xs => if classMatch rs neg x then [⟨some x, xs, st.caps⟩] else []
  | .cat a b, st => (mAllBase a st).flatMap (fun st' => mAllBase b st')
  | .alt a b, st => mAllBase a st ++ mAllBase b st
  | .star _, st => [st]
  | .grp n a, st =>
    (mAllBase a st).map (fun st' =>
      ⟨st'.prev, st'.rest,
        (n, String.mk (st.rest.take (st.rest.length - st'.rest.length))) :: st'.caps⟩)

/-- One matcher level: `lower` handles the body and continuation of a
`star` iteration (one fuel level down); every iteration must consume
input, as every starred subpattern in the embedded table does. -/
def mAllStep (lower : RE → MSt → List MSt) : RE → MSt → List MSt
  | .eps, st => [st]
  | .ch c, st =>
    match st.rest with
    | [] => []
    | x :: xs => if x.toLower == c.toLower then [⟨some x, xs, st.caps⟩] else []
  | .dot, st =>
    match st.rest with
    | [] => []
    | x :: xs => if x == '\n' then [] else [⟨some x, xs, st.caps⟩]
  | .wb, st => if isWordOpt st.prev != isWordOpt st.rest.head? then [st] else []
  | .cls rs neg, st =>
    match st.rest with
    | [] => []
    | x :: xs => if classMatch rs neg x then [⟨some x, xs, st.caps⟩] else []
  | .cat a b, st => (mAllStep lower a st).flatMap (fun st' => mAllStep lower b st')
  | .alt a b, st => mAllStep lower a st ++ mAllStep lower b st
  | .star a, st =>
    ((lower a st).filter (fun st' => st'.rest.length < st.rest.length)).flatMap
      (fun st' => lower (.star a) st') ++ [st]
  | .grp n a, st =>
    (mAllStep lower a st).map (fun st' =>
      ⟨st'.prev, st'.rest,
        (n, String.mk (st.rest.take (st.rest.length - st'.rest.length))) :: st'.caps⟩)

/-- All match states from one start state, in backtracking preference
order (greedy quantifiers first, left alternative first — Python's
backtracking order).  `fuel` bounds the star iterations. -/
def mAll : ℕ → RE → MSt → List MSt
  | 0, r, st => mAllBase r st
  | fuel + 1, r, st => mAllStep (mAll fuel) r st

/-- `re.search(r, s, re.IGNORECASE) is not None`: scan start positions left
to right. -/
def searchFrom (fuel : ℕ) (r : RE) : Option Char → List Char → Bool
  | prev, [] => !(mAll fuel r ⟨prev, [], []⟩).isEmpty
  | prev, c :: rest =>
    !(mAll fuel r ⟨prev, c :: rest, []⟩).isEmpty || searchFrom fuel r (some c) rest

/-- Boolean `re.search` on a string. -/
def reSearch (r : RE) (s : String) : Bool :=
  searchFrom (s.data.length + 2) r none s.data

/-- The value the tool keeps per `re.findall` match
(`match if isinstance(match, str) else match[-1]`): the capture of the
highest-numbered group, `maxG`. -/
def extractOf (maxG : ℕ) (st : MSt) : String :=
  (((st.caps.find? (fun pr => pr.1 == maxG))).map Prod.snd).getD ""

/-- Non-overlapping left-to-right scan of `re.findall`, keeping the
highest-group capture of each match; `steps` bounds the scan. -/
def findAllFrom (fuel : ℕ) (r : RE) (maxG : ℕ) :
    Option Char → List Char → ℕ → List String
  | _, _, 0 => []
  | prev, s, steps + 1 =>
    match (mAll fuel r ⟨prev, s, []⟩).head? with
    | some st' =>
      if st'.rest.length < s.length then
        extractOf maxG st' :: findAllFrom fuel r maxG st'.prev st'.rest steps
      else
        match s with
        | [] => [extractOf maxG st']
        | c :: rest => extractOf maxG st' :: findAllFrom fuel r maxG (some c) rest steps
    | none =>
      match s with
      | [] => []
      | c :: rest => findAllFrom fuel r maxG (some c) rest steps

/-- `re.findall(r, s, re.IGNORECASE)` post-processed as at line 125 of
`content_detection_tool.py`. -/
def reFindAll (r : RE) (maxG : ℕ) (s : String) : List String :=
  findAllFrom (s.data.length + 2) r maxG none s.data (s.data.length + 1)

/-! ### Pattern constructors mirroring the regex notation -/

/-- A literal word: concatenation of its characters. -/
def rstr (w : String) : RE :=
  w.data.foldr (fun c acc => RE.cat (.ch c) acc) .eps

/-- Alternation `a|b|...` (left-preferring, as in `re`). -/
def altRE : List RE → RE
  | [] => .eps
  | [r] => r
  | r :: rest => .alt r (altRE rest)

/-- Concatenation of a list of regexes. -/
def catRE : List RE → RE
  | [] => .eps
  | [r] => r
  | r :: rest => .cat r (catRE rest)

/-- Greedy `r+`. -/
def plusRE (r : RE) : RE := .cat r (.star r)

/-- Greedy `r?`. -/
def optRE (r : RE) : RE := .alt r .eps

/-- Greedy `r{0,n}`. -/
def upTo (r : RE) : ℕ → RE
  | 0 => .eps
  | n + 1 => optRE (.cat r (upTo r n))

/-- Greedy `r{lo,lo+extra}`. -/
def repRE (r : RE) (lo extra : ℕ) : RE :=
  catRE (List.replicate lo r ++ [upTo r extra])

/-- `\b( body )\b`, group 1 — the shape of every trigger pattern. -/
def wgrp (body : RE) : RE := catRE [.wb, .grp 1 body, .wb]

/-- `X.*Y` (with `\b` added by `wgrp`). -/
def spanRE (x y : String) : RE := catRE [rstr x, .star .dot, rstr y]

/-- `[A-Z]` (case-insensitive under `re.IGNORECASE`). -/
def upperCls : RE := .cls [('A', 'Z')] false

/-- `[a-z]` (case-insensitive under `re.IGNORECASE`). -/
def lowerCls : RE := .cls [('a', 'z')] false

/-- `\d`. -/
def digitCls : RE := .cls [('0', '9')] false

/-- `\s`. -/
def spaceCls : RE :=
  .cls [(' ', ' '), ('\t', '\t'), ('\n', '\n'), ('\x0b', '\x0b'),
    ('\x0c', '\x0c'), ('\r', '\r')] false

/-- `[^.!?]`. -/
def notPunctCls : RE := .cls [('.', '.'), ('!', '!'), ('?', '?')] true

/-- `[\w-]`. -/
def wordDashCls : RE :=
  .cls [('a', 'z'), ('A', 'Z'), ('0', '9'), ('_', '_'), ('-', '-')] false

/-! ### The pattern table of `ContentDetectionTool.__init__` (lines 24-84)

Each regex of `self.content_patterns` is transliterated below; the original
pattern is quoted in each comment.  Entity patterns carry the number of
their highest group (what `match[-1]` selects). -/

/-- Trigger and entity patterns of one content type. -/
structure PatternConfig where
  patterns : List RE
  entities : List (RE × ℕ)

/-- Chart trigger/entity patterns. -/
def chartConfig : PatternConfig where
  patterns :=
    [ -- \b(chart|graph|plot|visualize|visualization)\b
      wgrp (altRE [rstr "chart", rstr "graph", rstr "plot", rstr "visualize",
        rstr "visualization"]),
      -- \b(stock price|stock chart|price chart)\b
      wgrp (altRE [rstr "stock price", rstr "stock chart", rstr "price chart"]),
      -- \b(show.*data|display.*data)\b
      wgrp (altRE [spanRE "show" "data", spanRE "display" "data"]),
      -- \b(trend|trends|trending)\b
      wgrp (altRE [rstr "trend", rstr "trends", rstr "trending"]),
      -- \b(analytics|statistics|stats)\b
      wgrp (altRE [rstr "analytics", rstr "statistics", rstr "stats"]),
      -- \b(compare.*data|comparison)\b
      wgrp (altRE [spanRE "compare" "data", rstr "comparison"]),
      -- \b(financial.*data|market.*data)\b
      wgrp (altRE [spanRE "financial" "data", spanRE "market" "data"]),
      -- \b(crypto.*price|cryptocurrency)\b
      wgrp (altRE [spanRE "crypto" "price", rstr "cryptocurrency"]) ]
  entities :=
    [ -- \b([A-Z]{2,5})\b  (stock symbols)
      (wgrp (repRE upperCls 2 3), 1),
      -- \b(bitcoin|btc|ethereum|eth|crypto)\b
      (wgrp (altRE [rstr "bitcoin", rstr "btc", rstr "ethereum", rstr "eth",
        rstr "crypto"]), 1),
      -- \b(\d+%|\$\d+)\b  (percentages and prices)
      (wgrp (altRE [.cat (plusRE digitCls) (.ch '%'),
        .cat (.ch '$') (plusRE digitCls)]), 1) ]

/-- Image trigger/entity patterns. -/
def imageConfig : PatternConfig where
  patterns :=
    [ -- \b(generate.*image|create.*image|make.*image)\b
      wgrp (altRE [spanRE "generate" "image", spanRE "create" "image",
        spanRE "make" "image"]),
      -- \b(show.*picture|display.*picture)\b
      wgrp (altRE [spanRE "show" "picture", spanRE "display" "picture"]),
      -- \b(photo|photograph|pic)\b
      wgrp (altRE [rstr "photo", rstr "photograph", rstr "pic"]),
      -- \b(draw|sketch|illustrate)\b
      wgrp (altRE [rstr "draw", rstr "sketch", rstr "illustrate"]),
      -- \b(visual.*representation)\b
      wgrp (spanRE "visual" "representation"),
      -- \b(image.*of|picture.*of)\b
      wgrp (altRE [spanRE "image" "of", spanRE "picture" "of"]) ]
  entities :=
    [ -- \b(of\s+)([^.!?]+)  (subject after "of")
      (catRE [.wb, .grp 1 (.cat (rstr "of") (plusRE spaceCls)),
        .grp 2 (plusRE notPunctCls)], 2),
      -- \b(showing\s+)([^.!?]+)  (subject after "showing")
      (catRE [.wb, .grp 1 (.cat (rstr "showing") (plusRE spaceCls)),
        .grp 2 (plusRE notPunctCls)], 2) ]

/-- Video trigger/entity patterns. -/
def videoConfig : PatternConfig where
  patterns :=
    [ -- \b(video|watch|youtube|play)\b
      wgrp (altRE [rstr "video", rstr "watch", rstr "youtube", rstr "play"]),
      -- \b(movie|film|clip)\b
      wgrp (altRE [rstr "movie", rstr "film", rstr "clip"]),
      -- \b(tutorial|demo|demonstration)\b
      wgrp (altRE [rstr "tutorial", rstr "demo", rstr "demonstration"]),
      -- \b(youtube\.com|youtu\.be)\b
      wgrp (altRE [rstr "youtube.com", rstr "youtu.be"]),
      -- \b(stream|streaming)\b
      wgrp (altRE [rstr "stream", rstr "streaming"]) ]
  entities :=
    [ -- (https?://(?:www\.)?(?:youtube\.com/watch\?v=|youtu\.be/)[\w-]+)
      (.grp 1 (catRE [rstr "http", optRE (.ch 's'), rstr "://",
        optRE (rstr "www."),
        altRE [rstr "youtube.com/watch?v=", rstr "youtu.be/"],
        plusRE wordDashCls]), 1),
      -- \b(tutorial.*on|demo.*of|video.*about)\s+([^.!?]+)
      (catRE [.wb,
        .grp 1 (altRE [spanRE "tutorial" "on", spanRE "demo" "of",
          spanRE "video" "about"]),
        plusRE spaceCls, .grp 2 (plusRE notPunctCls)], 2) ]

/-- Map trigger/entity patterns. -/
def mapConfig : PatternConfig where
  patterns :=
    [ -- \b(map|location|where.*is|directions)\b
      wgrp (altRE [rstr "map", rstr "location", spanRE "where" "is",
        rstr "directions"]),
      -- \b(address|coordinates|latitude|longitude)\b
      wgrp (altRE [rstr "address", rstr "coordinates", rstr "latitude",
        rstr "longitude"]),
      -- \b(route|navigation|distance)\b
      wgrp (altRE [rstr "route", rstr "navigation", rstr "distance"]),
      -- \b(city|country|state|region)\b
      wgrp (altRE [rstr "city", rstr "country", rstr "state", rstr "region"]),
      -- \b(near.*me|nearby|around)\b
      wgrp (altRE [spanRE "near" "me", rstr "nearby", rstr "around"]),
      -- \b(travel.*to|go.*to)\b
      wgrp (altRE [spanRE "travel" "to", spanRE "go" "to"]) ]
  entities :=
    [ -- \b(in\s+)([A-Z][a-z]+(?:\s+[A-Z][a-z]+)*)  (location names)
      (catRE [.wb, .grp 1 (.cat (rstr "in") (plusRE spaceCls)),
        .grp 2 (catRE [upperCls, plusRE lowerCls,
          .star (catRE [plusRE spaceCls, upperCls, plusRE lowerCls])])], 2),
      -- \b(\d+\.?\d*°?\s*[NS],?\s*\d+\.?\d*°?\s*[EW])  (coordinates)
      (catRE [.wb, .grp 1 (catRE [plusRE digitCls, optRE (.ch '.'),
        .star digitCls, optRE (.ch '°'), .star spaceCls,
        .cls [('N', 'N'), ('S', 'S')] false, optRE (.ch ','), .star spaceCls,
        plusRE digitCls, optRE (.ch '.'), .star digitCls, optRE (.ch '°'),
        .star spaceCls, .cls [('E', 'E'), ('W', 'W')] false])], 1) ]

/-- `self.content_patterns`, in dict insertion order. -/
def contentPatterns : List (String × PatternConfig) :=
  [("chart", chartConfig), ("image", imageConfig), ("video", videoConfig),
   ("map", mapConfig)]

/-! ## `ContentDetectionTool.detect_content_intent` (lines 103-171) -/

/-- One element of `detection_results`. -/
structure Detection where
  content_type : String
  confidence : ℕ
  entities : List String
  pattern_matches : ℕ
deriving DecidableEq

/-- Number of trigger patterns matching the lowercased message
(`pattern_matches` in the source; each contributes +20 confidence). -/
def triggerCount (cfg : PatternConfig) (messageLower : String) : ℕ :=
  cfg.patterns.countP (fun p => reSearch p messageLower)

/-- The entity-extraction loop over `config['entities']`: returns the
accumulated `detected_entities` and the number of entity patterns that
yielded at least one match (each contributes +15 confidence). -/
def entityScan (cfg : PatternConfig) (message : String) : List String × ℕ :=
  cfg.entities.foldl
    (fun acc pe =>
      let ms := reFindAll pe.1 pe.2 message
      if ms.isEmpty then acc else (acc.1 ++ ms, acc.2 + 1))
    ([], 0)

/-- The per-content-type body of the analysis loop: `none` when no trigger
pattern matched (the type is not appended to `detection_results`). -/
def analyzeType (message messageLower : String) (name : String)
    (cfg : PatternConfig) : Option Detection :=
  let pm := triggerCount cfg messageLower
  let scan := entityScan cfg message
  let confidence := 20 * pm + 15 * scan.2
  if 0 < pm then
    some ⟨name, min confidence 100, scan.1.take 3, pm⟩
  else
    none

/-- Stable descending insertion by confidence: the inserted element goes
after all elements with confidence ≥ its own, exactly the order produced by
Python's stable `sort(key=confidence, reverse=True)` on the per-type
results accumulated in table order. -/
def insertDesc (d : Detection) : List Detection → List Detection
  | [] => [d]
  | x :: xs =>
    if x.confidence < d.confidence then d :: x :: xs
    else x :: insertDesc d xs

/-- Sort `detection_results` by descending confidence (stable). -/
def sortDesc (l : List Detection) : List Detection :=
  l.foldl (fun acc d => insertDesc d acc) []

/-- The sorted `detection_results` list for a message. -/
def detections (message : String) : List Detection :=
  let lower := strLower message
  sortDesc (contentPatterns.foldl
    (fun acc p =>
      match analyzeType message lower p.1 p.2 with
      | some d => acc ++ [d]
      | none => acc)
    [])

/-- The JSON object returned by `detect_content_intent` (successful path);
`timestamp` stands for `datetime.now().isoformat()`, passed in explicitly. -/
structure DetectResult where
  has_visual_content : Bool
  primary_content_type : String
  confidence : ℕ
  entities : List String
  all_detections : List Detection
  timestamp : ℕ
  message_length : ℕ
deriving DecidableEq

/-- `detect_content_intent(message)` at wall-clock instant `ts`. -/
def detect_content_intent (message : String) (ts : ℕ) : DetectResult :=
  let ds := detections message
  match ds.head? with
  | some d =>
    if 40 ≤ d.confidence then
      ⟨true, d.content_type, d.confidence, d.entities, ds, ts, message.length⟩
    else
      ⟨false, "text", 0, [], ds, ts, message.length⟩
  | none => ⟨false, "text", 0, [], ds, ts, message.length⟩

/-- The error object built by the `except` handler of
`detect_content_intent` (lines 161-171): the text default, regardless of
the caught error's message. -/
structure DetectErrorResult where
  has_visual_content : Bool
  primary_content_type : String
  confidence : ℕ
  entities : List String
  error : String
  timestamp : ℕ
deriving DecidableEq

/-- The handler's result for a caught exception message `e` at instant `ts`. -/
def detectErrorResult (e : String) (ts : ℕ) : DetectErrorResult :=
  ⟨false, "text", 0, [], e, ts⟩

/-! ## Helper lemmas -/

/-- The delay recorded at position `i` of the trace of `retryGo` started at
attempt `attempt` is the backoff delay of attempt `attempt + i`. -/
theorem retryGo_delays_get (op : ℕ → Attempt α) (b f M : ℚ) :
    ∀ (fuel attempt i : ℕ),
      i < (retryGo op b f M attempt fuel).delays.length →
      (retryGo op b f M attempt fuel).delays[i]?
        = some (backoffDelay b f M (attempt + i)) := by
  intro fuel
  induction fuel with
  | zero =>
    intro attempt i h
    cases hop : op attempt <;> simp [retryGo, hop] at h
  | succ fuel ih =>
    intro attempt i h
    cases hop : op attempt with
    | ok a => simp [retryGo, hop] at h
    | nonRetryableErr m => simp [retryGo, hop] at h
    | exc m =>
      cases i with
      | zero => simp [retryGo, hop]
      | succ i =>
        have h' : i < (retryGo op b f M (attempt + 1) fuel).delays.length := by
          simp [retryGo, hop] at h
          omega
        have := ih (attempt + 1) i h'
        simp only [retryGo, hop, List.getElem?_cons_succ]
        rw [this]
        ring_nf

/-- When the operation fails retryably on every attempt, `retryGo`
raises the last attempt's exception after using all its fuel. -/
theorem retryGo_allFail (op : ℕ → Attempt α) (b f M : ℚ) (e : ℕ → String)
    (hop : ∀ k, op k = .exc (e k)) :
    ∀ (fuel attempt : ℕ),
      (retryGo op b f M attempt fuel).outcome = .raisedLast (e (attempt + fuel))
        ∧ (retryGo op b f M attempt fuel).attempts = fuel + 1 := by
  intro fuel
  induction fuel with
  | zero => intro attempt; simp [retryGo, hop]
  | succ fuel ih =>
    intro attempt
    have := ih (attempt + 1)
    simp only [retryGo, hop]
    constructor
    · rw [this.1]; ring_nf
    · rw [this.2]

/-- When the operation fails on every attempt, `execGo` raises `ModelRetry`
with the metadata of the final failure. -/
theorem execGo_allFail (op : ℕ → Except String α) (name : String)
    (maxR : ℕ) (d : ℚ) (e : ℕ → String) (hop : ∀ k, op k = .error (e k)) :
    ∀ (fuel rc : ℕ),
      (execGo op name maxR d rc fuel).outcome
        = .modelRetry
            ("Tool " ++ name ++ " failed after " ++ toString maxR ++
              " retries: " ++ e (rc + fuel))
            ⟨name, false, rc + fuel⟩
        ∧ (execGo op name maxR d rc fuel).attempts = fuel + 1 := by
  intro fuel
  induction fuel with
  | zero => intro rc; simp [execGo, hop]
  | succ fuel ih =>
    intro rc
    have := ih (rc + 1)
    simp only [execGo, hop]
    refine ⟨?_, ?_⟩
    · rw [this.1]; ring_nf
    · rw [this.2]

/-! ## Claim C1 -/

/-- C1.  Through `retry_with_backoff` (and `retry_jina_request`) configured
with `base_delay=1.0, backoff_factor=2.0, max_delay=60.0`, the delay slept
before the Nth retry (N ≥ 1, list index N-1) equals
`min(1.0 * 2^(N-1), 60.0)`; and with `max_retries=3` an operation that
fails retryably on every attempt undergoes exactly 3 delayed retries
(delays `[1, 2, 4]`, 4 attempts in total) before the terminal error is
raised. -/
theorem backoff_growth :
    (∀ (α : Type) (op : ℕ → Attempt α) (maxRetries n : ℕ),
        n < (retry_with_backoff op maxRetries 1 60 2).delays.length →
        (retry_with_backoff op maxRetries 1 60 2).delays[n]?
          = some (min ((1 : ℚ) * 2 ^ n) 60))
    ∧ (∀ (α : Type) (op : ℕ → Attempt α) (e : ℕ → String),
        (∀ k, op k = .exc (e k)) →
        retry_with_backoff op 3 1 60 2
          = ⟨.raisedLast (e 3), [1, 2, 4], 4⟩)
    ∧ (∀ (α : Type) (op : ℕ → JinaAttempt α) (e : ℕ → String),
        (∀ k, op k = .exc (e k)) → (∀ k, jinaRetryable (e k) = true) →
        retry_jina_request op 3 1 60 2
          = ⟨.raised ("Jina AI request failed: " ++ e 3), [1, 2, 4], 4⟩) := by
  refine ⟨?_, ?_, ?_⟩
  · intro α op maxRetries n h
    simpa [backoffDelay] using
      retryGo_delays_get op 1 2 60 maxRetries 0 n h
  · intro α op e hop
    simp only [retry_with_backoff, retryGo, hop]
    norm_num [backoffDelay]
  · intro α op e hop hretry
    simp only [retry_jina_request, jinaGo, hop, hretry, if_pos]
    norm_num [backoffDelay]

/-- Witness for C1 at a concrete always-failing operation. -/
theorem backoff_growth_witness :
    (retry_with_backoff (fun _ => (Attempt.exc "boom" : Attempt Unit)) 3 1 60
        2).delays[0]? = some (min ((1 : ℚ) * 2 ^ 0) 60)
    ∧ retry_with_backoff (fun _ => (Attempt.exc "boom" : Attempt Unit)) 3 1 60 2
        = ⟨.raisedLast "boom", [1, 2, 4], 4⟩ := by
  refine ⟨backoff_growth.1 Unit (fun _ => .exc "boom") 3 0 ?_,
    backoff_growth.2.1 Unit (fun _ => .exc "boom") (fun _ => "boom")
      (fun _ => rfl)⟩
  simp [retry_with_backoff, retryGo]

/-! ## Claim C2 -/

/-- C2.  A successful `acquire` keeps the per-key in-window timestamp count
at most `max_requests` (given a positive `max_requests` and the count bound
holding on entry, as sequential use maintains); concretely, with
`max_requests=3, time_window=60` and rapid calls at times 0, 1, 2, 3, the
4th call suspends until time 60 — exactly when the 1st call's timestamp 0
leaves the strict 60-second window — and 3 of the 4 retained timestamps lie
in the window at that instant. -/
theorem rate_limiter_ceiling :
    (∀ (maxRequests : ℕ) (timeWindow : ℚ) (reqs : List ℚ) (now : ℚ),
        1 ≤ maxRequests →
        windowCount reqs now timeWindow ≤ maxRequests →
        windowCount (acquire maxRequests timeWindow reqs now).1
            (acquire maxRequests timeWindow reqs now).2 timeWindow
          ≤ maxRequests)
    ∧ acquire 3 60 [] 0 = ([0], 0)
    ∧ acquire 3 60 [0] 1 = ([0, 1], 1)
    ∧ acquire 3 60 [0, 1] 2 = ([0, 1, 2], 2)
    ∧ acquire 3 60 [0, 1, 2] 3 = ([0, 1, 2, 3], 60)
    ∧ windowCount [0, 1, 2, 3] 60 60 = 3 := by
  refine ⟨?_, by norm_num [acquire, List.filter, List.min?],
    by norm_num [acquire, List.filter, List.min?],
    by norm_num [acquire, List.filter, List.min?],
    by norm_num [acquire, List.filter, List.min?],
    by norm_num [windowCount, List.filter]⟩
  intro maxRequests timeWindow reqs now hpos hcount
  classical
  set purged := reqs.filter (fun t => decide (now - t < timeWindow)) with hpurged
  have hplen : purged.length ≤ maxRequests := hcount
  by_cases hge : maxRequests ≤ purged.length
  · -- the wait branch
    have hnonnil : purged ≠ [] := by
      intro hnil
      rw [hnil] at hge
      simp at hge
      omega
    obtain ⟨oldest, hmin⟩ : ∃ o, purged.min? = some o := by
      cases h : purged.min? with
      | none => exact absurd (List.min?_eq_none_iff.mp h) hnonnil
      | some o => exact ⟨o, rfl⟩
    have hmem : oldest ∈ purged := List.min?_mem min_choice hmin
    have hold : now - oldest < timeWindow := by
      have := List.mem_filter.mp hmem
      exact of_decide_eq_true this.2
    have hwait : 0 < timeWindow - (now - oldest) := by linarith
    have hres : acquire maxRequests timeWindow reqs now
        = (purged ++ [now], now + (timeWindow - (now - oldest))) := by
      simp only [acquire, ← hpurged, if_pos hge, hmin, if_pos hwait]
    rw [hres]
    show windowCount (purged ++ [now]) (now + (timeWindow - (now - oldest)))
      timeWindow ≤ maxRequests
    have hend : now + (timeWindow - (now - oldest)) = oldest + timeWindow := by ring
    rw [hend]
    -- in the purged part only timestamps strictly above the oldest remain
    have hcongr :
        purged.filter (fun t => decide (oldest + timeWindow - t < timeWindow))
          = purged.filter (fun t => decide (oldest < t)) := by
      apply List.filter_congr
      intro x _
      have : (oldest + timeWindow - x < timeWindow) ↔ (oldest < x) := by
        constructor <;> intro h <;> linarith
      simp [this]
    have hlt :
        (purged.filter (fun t => decide (oldest < t))).length < purged.length := by
      apply List.length_filter_lt_length_iff_exists.mpr
      exact ⟨oldest, hmem, by simp⟩
    unfold windowCount
    rw [List.filter_append, List.length_append, hcongr]
    have hsingle :
        (([now] : List ℚ).filter
          (fun t => decide (oldest + timeWindow - t < timeWindow))).length ≤ 1 :=
      List.length_filter_le _ _
    omega
  · -- the no-wait branch
    have hres : acquire maxRequests timeWindow reqs now = (purged ++ [now], now) := by
      simp only [acquire, ← hpurged, if_neg hge]
    rw [hres]
    unfold windowCount
    calc ((purged ++ [now]).filter (fun t => decide (now - t < timeWindow))).length
        ≤ (purged ++ [now]).length := List.length_filter_le _ _
      _ = purged.length + 1 := by simp
      _ ≤ maxRequests := by omega

/-- Witness for C2's quantified invariant at a concrete state. -/
theorem rate_limiter_ceiling_witness :
    windowCount (acquire 1 60 [] 0).1 (acquire 1 60 [] 0).2 60 ≤ 1 :=
  rate_limiter_ceiling.1 1 60 [] 0 (by norm_num)
    (by norm_num [windowCount, List.filter])

/-- When the operation fails with a retryable-keyword error on every
attempt, `jinaGo` exhausts its fuel and raises the wrapped message of the
last attempt. -/
theorem jinaGo_allFail (op : ℕ → JinaAttempt α) (b f M : ℚ) (e : ℕ → String)
    (hop : ∀ k, op k = .exc (e k)) (hr : ∀ k, jinaRetryable (e k) = true) :
    ∀ (fuel attempt : ℕ),
      (jinaGo op b f M attempt fuel).outcome
          = .raised ("Jina AI request failed: " ++ e (attempt + fuel))
        ∧ (jinaGo op b f M attempt fuel).attempts = fuel + 1 := by
  intro fuel
  induction fuel with
  | zero => intro attempt; simp [jinaGo, hop]
  | succ fuel ih =>
    intro attempt
    have := ih (attempt + 1)
    simp only [jinaGo, hop, hr, if_pos]
    constructor
    · rw [this.1]; ring_nf
    · rw [this.2]

/-! ## Claim C5 -/

/-- C5 counterexample.  `retry_with_backoff` (routes.py line 94) re-raises
the last underlying exception unchanged after exhausting retries: the
raised error for an operation that always fails with message `"boom"` is
the bare `"boom"`, wrapping nothing and carrying neither an operation name
nor an attempt count. -/
theorem exhausted_retries_counterexample :
    (retry_with_backoff (fun _ => (Attempt.exc "boom" : Attempt Unit)) 3 1 60
        2).outcome = .raisedLast "boom"
    ∧ strContains "boom" "3" = false
    ∧ strContains "boom" "retries" = false := by
  refine ⟨?_, by decide, by decide⟩
  simp [retry_with_backoff, retryGo]

/-- C5 amended.  Of the three retry wrappers, only
`MetatronAgent._execute_with_retry` raises a terminal error carrying the
tool name and the attempt count — a `ModelRetry` whose message embeds the
tool name, `max_retries` and the last error, built alongside a metadata
record with `success=False` and `retry_count = max_retries`;
`retry_jina_request` raises a `JinaNonRetryableError` wrapping only the
last error's message; and `retry_with_backoff` in `routes.py` re-raises
the raw last exception with no wrapper at all. -/
theorem exhausted_retries_amended :
    (∀ (α : Type) (name : String) (maxR : ℕ) (d : ℚ)
        (op : ℕ → Except String α) (e : ℕ → String),
        (∀ k, op k = .error (e k)) →
        (execute_with_retry op name maxR d).outcome
            = .modelRetry
                ("Tool " ++ name ++ " failed after " ++ toString maxR ++
                  " retries: " ++ e maxR)
                ⟨name, false, maxR⟩
          ∧ (execute_with_retry op name maxR d).attempts = maxR + 1)
    ∧ (∀ (α : Type) (maxR : ℕ) (b M f : ℚ) (op : ℕ → JinaAttempt α)
        (e : ℕ → String),
        (∀ k, op k = .exc (e k)) → (∀ k, jinaRetryable (e k) = true) →
        (retry_jina_request op maxR b M f).outcome
          = .raised ("Jina AI request failed: " ++ e maxR))
    ∧ (∀ (α : Type) (maxR : ℕ) (b M f : ℚ) (op : ℕ → Attempt α)
        (e : ℕ → String),
        (∀ k, op k = .exc (e k)) →
        (retry_with_backoff op maxR b M f).outcome = .raisedLast (e maxR)) := by
  refine ⟨?_, ?_, ?_⟩
  · intro α name maxR d op e hop
    have := execGo_allFail op name maxR d e hop maxR 0
    simpa [execute_with_retry] using this
  · intro α maxR b M f op e hop hr
    have := jinaGo_allFail op b f M e hop hr maxR 0
    simpa [retry_jina_request] using this.1
  · intro α maxR b M f op e hop
    have := retryGo_allFail op b f M e hop maxR 0
    simpa [retry_with_backoff] using this.1

/-- Witness for C5's amended statement at a concrete failing tool. -/
theorem exhausted_retries_amended_witness :
    (execute_with_retry (fun _ => (Except.error "boom" : Except String Unit))
        "deep_research" 3 1).outcome
      = .modelRetry "Tool deep_research failed after 3 retries: boom"
          ⟨"deep_research", false, 3⟩ :=
  ((exhausted_retries_amended.1 Unit "deep_research" 3 1
    (fun _ => .error "boom") (fun _ => "boom") (fun _ => rfl)).1)

/-! ## Claim C7 -/

/-- C7 counterexample.  An error whose message matches no classification
keyword is NOT retried: `run_chat_with_retry` wraps `"boom"` in
`NonRetryableError`, so the `/chat` pipeline makes exactly one attempt,
sleeps zero times, and raises immediately; `retry_jina_request` likewise
raises at once on an unrecognized error. -/
theorem unknown_error_default_counterexample :
    chatPipeline (fun _ => (Except.error "boom" : Except String Unit))
        = ⟨.raisedNonRetryable ("Permanent error: boom"), [], 1⟩
    ∧ retry_jina_request (fun _ => (JinaAttempt.exc "boom" : JinaAttempt Unit))
        3 1 30 2
        = ⟨.raised ("Jina AI request failed: boom"), [], 1⟩ := by
  constructor
  · have hb : chatRetryable "boom" = false := by decide
    simp [chatPipeline, retry_with_backoff, retryGo, chatAttempt, hb]
  · have hb : jinaRetryable "boom" = false := by decide
    simp [retry_jina_request, jinaGo, hb]

/-- C7 amended.  Unknown errors default to NON-retryable: when the agent
call always fails with message `m`, the `/chat` pipeline raises
`NonRetryableError("Permanent error: " ++ m)` after exactly one attempt and
zero delays if `m` matches no keyword of line 198, and only
keyword-matching errors are retried up to `max_retries=2` (three attempts,
delays `[1, 2]`) before `RetryableError("Temporary error: " ++ m)` is
raised as the last exception. -/
theorem unknown_error_default_amended :
    ∀ (m : String) (agentCall : ℕ → Except String Unit),
      (∀ k, agentCall k = .error m) →
      (chatRetryable m = false →
        chatPipeline agentCall
          = ⟨.raisedNonRetryable ("Permanent error: " ++ m), [], 1⟩)
      ∧ (chatRetryable m = true →
        chatPipeline agentCall
          = ⟨.raisedLast ("Temporary error: " ++ m), [1, 2], 3⟩) := by
  intro m agentCall hcall
  constructor
  · intro hm
    simp [chatPipeline, retry_with_backoff, retryGo, chatAttempt, hcall, hm]
  · intro hm
    simp only [chatPipeline, retry_with_backoff, retryGo, chatAttempt, hcall,
      hm, if_pos]
    norm_num [backoffDelay]

/-- Witness for C7's amended statement: both branches at concrete errors. -/
theorem unknown_error_default_amended_witness :
    chatPipeline (fun _ => (Except.error "bad payload" : Except String Unit))
        = ⟨.raisedNonRetryable ("Permanent error: bad payload"), [], 1⟩
    ∧ chatPipeline (fun _ => (Except.error "timeout" : Except String Unit))
        = ⟨.raisedLast ("Temporary error: timeout"), [1, 2], 3⟩ :=
  ⟨(unknown_error_default_amended "bad payload" (fun _ => .error "bad payload")
      (fun _ => rfl)).1 (by decide),
   (unknown_error_default_amended "timeout" (fun _ => .error "timeout")
      (fun _ => rfl)).2 (by decide)⟩

/-! ## Claim C8 -/

/-- C8.  When the upstream LLM call raises an error carrying a `"429"` or
`"RESOURCE_EXHAUSTED"` signal, `MetatronAgent.run` returns the hard-coded
rate-limit output as a normal completion (not an error), and the `/chat`
retry pipeline around it therefore performs exactly one attempt with no
delays and no further retries of the call. -/
theorem rate_limit_protection :
    ∀ (m : String) (llm : ℕ → Except String AgentOutput),
      rateLimitSignal m = true → (∀ k, llm k = .error m) →
      metatronRun (llm 0) = .complete rateLimitOutput
      ∧ chatPipeline (fun k => .ok (metatronRun (llm k)))
          = ⟨.success (.complete rateLimitOutput), [], 1⟩ := by
  intro m llm hsig hllm
  have hrun : ∀ k, metatronRun (llm k) = .complete rateLimitOutput := by
    intro k
    simp [metatronRun, hllm, hsig]
  refine ⟨hrun 0, ?_⟩
  simp [chatPipeline, retry_with_backoff, retryGo, chatAttempt, hrun]

/-- Witness for C8 at the literal quota error message. -/
theorem rate_limit_protection_witness :
    metatronRun (Except.error "429 RESOURCE_EXHAUSTED") = .complete rateLimitOutput :=
  (rate_limit_protection "429 RESOURCE_EXHAUSTED"
    (fun _ => .error "429 RESOURCE_EXHAUSTED") (by decide) (fun _ => rfl)).1

/-! ## Claim C4 -/

/-- Number of chunks of a given `type` tag in a stream. -/
def chunkCount (ty : String) (l : List SLine) : ℕ :=
  (l.filter (fun e =>
    match e with
    | .chunk t _ => t == ty
    | .done => false)).length

/-- C4 counterexample.  The streaming endpoint never emits a chunk whose
`type` is `"complete"`: on a successful session the emitted types are
`status, status, response` followed by the `[DONE]` sentinel, so the claim
that the sequence ends with a `complete` chunk fails even on success. -/
theorem stream_ordering_counterexample :
    generate_stream (.ok "hi")
        = [.chunk "status" streamInitMsg, .chunk "status" streamFormatMsg,
           .chunk "response" "hi", .done]
    ∧ chunkCount "complete" (generate_stream (.ok "hi")) = 0 := by
  constructor
  · rfl
  · decide

/-- C4 amended.  With the completion chunk realized as the single
`type="response"` data chunk: every stream starts with a `status` chunk and
is terminated by the `[DONE]` sentinel; a successful session emits exactly
one `response` chunk, placed immediately before `[DONE]` with no chunk
after it; and a session that hits an error emits no `response` chunk at
all. -/
theorem stream_ordering_amended :
    ∀ (res : Except String String),
      (generate_stream res).head? = some (.chunk "status" streamInitMsg)
      ∧ (generate_stream res).getLast? = some .done
      ∧ (∀ r, res = .ok r →
          chunkCount "response" (generate_stream res) = 1
          ∧ generate_stream res
              = [.chunk "status" streamInitMsg, .chunk "status" streamFormatMsg,
                 .chunk "response" r, .done])
      ∧ (∀ m, res = .error m →
          chunkCount "response" (generate_stream res) = 0) := by
  intro res
  cases res with
  | ok r =>
    refine ⟨rfl, rfl, ?_, ?_⟩
    · intro r' hr'
      cases hr'
      exact ⟨by simp [generate_stream, chunkCount], rfl⟩
    · intro m hm
      cases hm
  | error m =>
    refine ⟨rfl, rfl, ?_, ?_⟩
    · intro r' hr'
      cases hr'
    · intro m' hm'
      cases hm'
      simp [generate_stream, chunkCount]

/-- Witness for C4's amended statement at concrete outcomes. -/
theorem stream_ordering_amended_witness :
    chunkCount "response" (generate_stream (.ok "hi")) = 1
    ∧ chunkCount "response" (generate_stream (.error "boom")) = 0 :=
  ⟨((stream_ordering_amended (.ok "hi")).2.2.1 "hi" rfl).1,
   (stream_ordering_amended (.error "boom")).2.2.2 "boom" rfl⟩

/-! ## Claim C10 -/

/-- C10 counterexample.  The streaming error path embeds the raw exception
text in the user-visible error chunk: for an exception with message
`"boom"`, the streamed error message is `"Processing failed: boom"`, which
contains the raw text and is not the taxonomy's mapped user message. -/
theorem raw_error_leak_counterexample :
    generate_stream (.error "boom")
        = [.chunk "status" streamInitMsg,
           .chunk "error" "Processing failed: boom", .done]
    ∧ strContains "Processing failed: boom" "boom" = true
    ∧ ("Processing failed: boom" = userMsgUnknown) = False := by
  refine ⟨rfl, by decide, ?_⟩
  simp only [eq_iff_iff, iff_false]
  decide

/-- C10 amended.  The non-streaming `/chat` endpoint surfaces only fixed
taxonomy messages in its HTTP detail; but the streaming error path yields
`"Processing failed: " ++ raw` and the agent's outer fallback embeds the
raw message after `"I apologize, ..."`, so those two user-visible error
paths do expose raw exception text. -/
theorem raw_error_leak_amended :
    (∀ m, generate_stream (.error m)
      = [.chunk "status" streamInitMsg,
         .chunk "error" ("Processing failed: " ++ m), .done])
    ∧ (∀ m, rateLimitSignal m = false →
        metatronRun (.error m) = .complete (fallbackOutput m)
        ∧ (fallbackOutput m).response
            = "I apologize, but I encountered an error processing your request: "
              ++ m)
    ∧ (∀ (r : RetryOutcome Unit) (d : ℕ × String), chatErrorDetail r = some d →
        d.2 ∈ [userMsgConnection, userMsgValidation, userMsgPermission,
          userMsgRateLimit, userMsgAuth, userMsgUnknown,
          "I\x27m experiencing temporary difficulties. Please try again in a moment."]) := by
  refine ⟨fun m => rfl, ?_, ?_⟩
  · intro m hm
    exact ⟨by simp [metatronRun, hm], rfl⟩
  · intro r d hd
    cases r with
    | success a => simp [chatErrorDetail] at hd
    | raisedNonRetryable m =>
      simp only [chatErrorDetail, Option.some.injEq] at hd
      subst hd
      simp only [create_error_response]
      split
      · simp
      · split
        · simp
        · split
          · simp
          · split
            · simp
            · split
              · simp
              · simp
    | raisedLast m =>
      simp only [chatErrorDetail, Option.some.injEq] at hd
      subst hd
      simp

/-- Witness for C10's amended statement at a concrete raw error. -/
theorem raw_error_leak_amended_witness :
    metatronRun (.error "boom") = .complete (fallbackOutput "boom")
    ∧ (fallbackOutput "boom").response
        = "I apologize, but I encountered an error processing your request: boom" :=
  ⟨(raw_error_leak_amended.2.1 "boom" (by decide)).1,
   ((raw_error_leak_amended.2.1 "boom" (by decide)).2).trans rfl⟩

/-! ## Classifier structural lemmas -/

/-- Descending-confidence order between detections. -/
def confGE (a b : Detection) : Prop := b.confidence ≤ a.confidence

/-- Membership in an `insertDesc` insertion. -/
theorem mem_insertDesc {x d : Detection} :
    ∀ {l : List Detection}, x ∈ insertDesc d l ↔ x = d ∨ x ∈ l := by
  intro l
  induction l with
  | nil => simp [insertDesc]
  | cons y ys ih =>
    simp only [insertDesc]
    split
    · simp [List.mem_cons]
    · simp only [List.mem_cons, ih]
      tauto

/-- Membership through the sorting fold. -/
theorem mem_sortDesc_aux {x : Detection} :
    ∀ (l acc : List Detection),
      x ∈ l.foldl (fun a d => insertDesc d a) acc ↔ x ∈ acc ∨ x ∈ l := by
  intro l
  induction l with
  | nil => simp
  | cons d ds ih =>
    intro acc
    simp only [List.foldl_cons, ih, mem_insertDesc, List.mem_cons]
    tauto

/-- `sortDesc` is a permutation in the membership sense. -/
theorem mem_sortDesc {x : Detection} {l : List Detection} :
    x ∈ sortDesc l ↔ x ∈ l := by
  unfold sortDesc
  rw [mem_sortDesc_aux]
  simp

/-- `insertDesc` preserves descending pairwise order. -/
theorem pairwise_insertDesc {d : Detection} :
    ∀ {l : List Detection}, l.Pairwise confGE → (insertDesc d l).Pairwise confGE := by
  intro l
  induction l with
  | nil => intro _; simp [insertDesc, List.pairwise_cons]
  | cons y ys ih =>
    intro h
    rw [List.pairwise_cons] at h
    simp only [insertDesc]
    split
    · rename_i hlt
      rw [List.pairwise_cons]
      refine ⟨?_, List.pairwise_cons.mpr h⟩
      intro z hz
      rcases List.mem_cons.mp hz with rfl | hz'
      · exact Nat.le_of_lt hlt
      · exact Nat.le_trans (h.1 z hz') (Nat.le_of_lt hlt)
    · rename_i hge
      rw [List.pairwise_cons]
      refine ⟨?_, ih h.2⟩
      intro z hz
      rcases mem_insertDesc.mp hz with rfl | hz'
      · exact Nat.le_of_not_lt hge
      · exact h.1 z hz'

/-- The sorting fold yields a descending pairwise-ordered list. -/
theorem pairwise_sortDesc_aux :
    ∀ (l acc : List Detection), acc.Pairwise confGE →
      (l.foldl (fun a d => insertDesc d a) acc).Pairwise confGE := by
  intro l
  induction l with
  | nil => intro acc h; simpa using h
  | cons d ds ih => intro acc h; exact ih _ (pairwise_insertDesc h)

/-- `sortDesc` sorts by descending confidence. -/
theorem pairwise_sortDesc (l : List Detection) :
    (sortDesc l).Pairwise confGE :=
  pairwise_sortDesc_aux l [] (by simp)

/-- Inverting a successful `analyzeType`. -/
theorem analyzeType_eq_some {message lower name : String}
    {cfg : PatternConfig} {d : Detection}
    (h : analyzeType message lower name cfg = some d) :
    d.content_type = name
    ∧ d.pattern_matches = triggerCount cfg lower
    ∧ 0 < triggerCount cfg lower
    ∧ d.confidence
        = min (20 * triggerCount cfg lower + 15 * (entityScan cfg message).2) 100
    ∧ d.entities = (entityScan cfg message).1.take 3 := by
  by_cases hpos : 0 < triggerCount cfg lower
  · simp only [analyzeType, hpos, if_true] at h
    injection h with h
    subst h
    exact ⟨rfl, rfl, hpos, rfl, rfl⟩
  · simp only [analyzeType, hpos, if_false] at h
    exact absurd h.symm (by simp)

/-- Every member of `detections` comes from a successful `analyzeType` on
one of the table's content types. -/
theorem mem_detections_aux {message : String} {d : Detection} :
    ∀ (l : List (String × PatternConfig)) (acc : List Detection),
      d ∈ l.foldl
        (fun acc p =>
          match analyzeType message (strLower message) p.1 p.2 with
          | some d' => acc ++ [d']
          | none => acc) acc →
      d ∈ acc ∨ ∃ p ∈ l, analyzeType message (strLower message) p.1 p.2 = some d := by
  intro l
  induction l with
  | nil => intro acc h; exact Or.inl h
  | cons p ps ih =>
    intro acc h
    rcases ih _ h with hacc | ⟨q, hq, hq'⟩
    · cases hA : analyzeType message (strLower message) p.1 p.2 with
      | some d' =>
        simp only [hA] at hacc
        rcases List.mem_append.mp hacc with h1 | h2
        · exact Or.inl h1
        · have hdd : d = d' := by simpa using h2
          subst hdd
          exact Or.inr ⟨p, List.mem_cons_self p ps, hA⟩
      | none =>
        simp only [hA] at hacc
        exact Or.inl hacc
    · exact Or.inr ⟨q, List.mem_cons_of_mem p hq, hq'⟩

/-- Members of `detections message` are exactly analyses of table entries. -/
theorem mem_detections {message : String} {d : Detection}
    (h : d ∈ detections message) :
    ∃ p ∈ contentPatterns, analyzeType message (strLower message) p.1 p.2 = some d := by
  unfold detections at h
  rcases mem_detections_aux contentPatterns [] (mem_sortDesc.mp h) with h0 | h1
  · cases h0
  · exact h1

/-! ## Claim C3 -/

/-- C3.  For every message: each detection in the result set corresponds
to a content type of the pattern table with confidence
`min(20·pattern_matches + 15·entity_hits, 100)`, at least one matching
trigger pattern, and at most 3 retained entities; the result set is
sorted by descending confidence; and the primary detection is the
top-scoring type exactly when its confidence is ≥ 40, the message being
classified as plain text with confidence 0 otherwise. -/
theorem classifier_scoring :
    ∀ (message : String) (ts : ℕ),
      (∀ d ∈ detections message,
        ∃ p ∈ contentPatterns,
          d.content_type = p.1
          ∧ d.pattern_matches = triggerCount p.2 (strLower message)
          ∧ 0 < d.pattern_matches
          ∧ d.confidence
              = min (20 * d.pattern_matches + 15 * (entityScan p.2 message).2) 100
          ∧ d.entities = (entityScan p.2 message).1.take 3
          ∧ d.entities.length ≤ 3
          ∧ d.confidence ≤ 100)
      ∧ (detections message).Pairwise confGE
      ∧ (detect_content_intent message ts).all_detections = detections message
      ∧ (∀ d, (detections message).head? = some d → 40 ≤ d.confidence →
          (detect_content_intent message ts).primary_content_type = d.content_type
          ∧ (detect_content_intent message ts).confidence = d.confidence
          ∧ (detect_content_intent message ts).entities = d.entities
          ∧ (detect_content_intent message ts).has_visual_content = true)
      ∧ (∀ d, (detections message).head? = some d → d.confidence < 40 →
          (detect_content_intent message ts).primary_content_type = "text"
          ∧ (detect_content_intent message ts).confidence = 0)
      ∧ ((detections message).head? = none →
          (detect_content_intent message ts).primary_content_type = "text"
          ∧ (detect_content_intent message ts).confidence = 0) := by
  intro message ts
  refine ⟨?_, pairwise_sortDesc _, ?_, ?_, ?_, ?_⟩
  · intro d hd
    obtain ⟨p, hp, hA⟩ := mem_detections hd
    obtain ⟨h1, h2, h3, h4, h5⟩ := analyzeType_eq_some hA
    refine ⟨p, hp, h1, h2, h2 ▸ h3, h2 ▸ h4, h5, ?_, h4 ▸ Nat.min_le_right _ _⟩
    rw [h5]
    simp only [List.length_take]
    omega
  · cases hh : (detections message).head? with
    | none => simp [detect_content_intent, hh]
    | some d =>
      by_cases h40 : 40 ≤ d.confidence <;>
        simp [detect_content_intent, hh, h40]
  · intro d hh h40
    simp [detect_content_intent, hh, h40]
  · intro d hh h40
    have : ¬ 40 ≤ d.confidence := Nat.not_le_of_lt h40
    simp [detect_content_intent, hh, this]
  · intro hh
    simp [detect_content_intent, hh]

/-- Witness for C3 at the chart message: the top detection scores 70 ≥ 40
and becomes the primary classification. -/
theorem classifier_scoring_witness :
    (detect_content_intent "show me a chart of bitcoin price trends" 0).primary_content_type
        = (⟨"chart", 70, ["show", "me", "chart"], 2⟩ : Detection).content_type
    ∧ (detect_content_intent "show me a chart of bitcoin price trends" 0).confidence
        = (⟨"chart", 70, ["show", "me", "chart"], 2⟩ : Detection).confidence := by
  have h := (classifier_scoring "show me a chart of bitcoin price trends" 0).2.2.2.1
    ⟨"chart", 70, ["show", "me", "chart"], 2⟩ (by set_option maxRecDepth 10000 in decide)
    (by decide)
  exact ⟨h.1, h.2.1⟩

/-! ## Claim C6 -/

/-- C6 counterexample.  The message
`"show me a chart of bitcoin price trends"` does classify as `chart` with
confidence 70 ≥ 40, but its kept entity list is
`["show", "me", "chart"]` — the case-insensitive stock-symbol pattern
`\b([A-Z]{2,5})\b` floods the entity list with ordinary words, and the
3-entity truncation cuts the bitcoin token off, so the entity list
contains no bitcoin/crypto token. -/
theorem classifier_threshold_counterexample :
    (detect_content_intent "show me a chart of bitcoin price trends" 0).entities
        = ["show", "me", "chart"]
    ∧ ((detect_content_intent "show me a chart of bitcoin price trends" 0).entities.any
        (fun e => ["bitcoin", "btc", "ethereum", "eth", "crypto"].contains e)) = false := by
  set_option maxRecDepth 10000 in decide

/-- C6 amended.  `"show me a chart of bitcoin price trends"` classifies as
`chart` with confidence 70 ≥ 40; the crypto entity pattern did match
(the full accumulated entity list ends with `"bitcoin"` and contributed
+15), but the kept top-3 entities are `["show", "me", "chart"]`;
`"what is the capital of France"` classifies as `text` with confidence 0. -/
theorem classifier_threshold_amended :
    detect_content_intent "show me a chart of bitcoin price trends" 0
        = ⟨true, "chart", 70, ["show", "me", "chart"],
           [⟨"chart", 70, ["show", "me", "chart"], 2⟩], 0, 39⟩
    ∧ (entityScan chartConfig "show me a chart of bitcoin price trends").1
        = ["show", "me", "chart", "of", "price", "bitcoin"]
    ∧ (entityScan chartConfig "show me a chart of bitcoin price trends").2 = 2
    ∧ detect_content_intent "what is the capital of France" 0
        = ⟨false, "text", 0, [], [], 0, 29⟩ := by
  set_option maxRecDepth 10000 in decide

/-! ## Claim C9 -/

/-- C9 counterexample.  `detect_content_intent` is not a function of the
message alone: its returned object embeds the wall-clock timestamp
(`datetime.now().isoformat()`), so two invocations on the same message at
different instants return different results (and the code also performs
logging I/O on each call). -/
theorem classifier_purity_counterexample :
    detect_content_intent "x" 0 ≠ detect_content_intent "x" 1 := by
  decide

/-- C9 amended.  All fields of the detection result other than the
embedded timestamp are a deterministic pure function of the message, and
the error handler yields the text default
(`text`, confidence 0, no entities) for any internal error. -/
theorem classifier_purity_amended :
    (∀ (message : String) (t1 t2 : ℕ),
      (detect_content_intent message t1).has_visual_content
          = (detect_content_intent message t2).has_visual_content
      ∧ (detect_content_intent message t1).primary_content_type
          = (detect_content_intent message t2).primary_content_type
      ∧ (detect_content_intent message t1).confidence
          = (detect_content_intent message t2).confidence
      ∧ (detect_content_intent message t1).entities
          = (detect_content_intent message t2).entities
      ∧ (detect_content_intent message t1).all_detections
          = (detect_content_intent message t2).all_detections
      ∧ (detect_content_intent message t1).message_length
          = (detect_content_intent message t2).message_length)
    ∧ (∀ (e : String) (ts : ℕ),
      (detectErrorResult e ts).has_visual_content = false
      ∧ (detectErrorResult e ts).primary_content_type = "text"
      ∧ (detectErrorResult e ts).confidence = 0
      ∧ (detectErrorResult e ts).entities = []) := by
  constructor
  · intro message t1 t2
    cases hh : (detections message).head? with
    | none => simp [detect_content_intent, hh]
    | some d =>
      by_cases h40 : 40 ≤ d.confidence <;>
        simp [detect_content_intent, hh, h40]
  · intro e ts
    exact ⟨rfl, rfl, rfl, rfl⟩

end SmartCanvas
